import Mathlib

/-!
Verification of the PPTX element-extraction core (`streamlit_app.py`).

The development shallowly embeds the presentation object model that the
script reads through the `python-pptx` dependency (slides, shapes, text
frames, paragraphs, runs, tables, fill specifications) and the four core
functions of the script:

* `get_shape_fill_color_info` — the Fill-Color Classifier;
* `get_all_text_from_shape`   — the Text Concatenator;
* `generate_text_details_tsv` — the Text-Run Extractor (Stream A);
* `generate_combined_shape_details_tsv` — the Shape-Summary Extractor
  (Stream B).

Python exceptions are embedded as `Except Unit`; a pass that catches an
exception and returns `None` is embedded as an `Option` result, `none`
standing for the discarded (no-rows) outcome.  Rows model the data rows
of the emitted TSV bodies.  Python's `str.strip` is embedded as
`pyStrip` over character lists.
-/

deriving instance DecidableEq for Except

/-- Embedding of Python's `str.strip()` on the character-list level:
drop whitespace from the front, then from the back. -/
def stripChars (l : List Char) : List Char :=
  ((l.dropWhile Char.isWhitespace).reverse.dropWhile Char.isWhitespace).reverse

/-- Embedding of Python's `str.strip()` for strings. -/
def pyStrip (s : String) : String :=
  String.mk (stripChars s.toList)

/-- A text run: a string of uniformly formatted text. -/
structure Run where
  text : String
deriving DecidableEq, Repr

/-- A paragraph: an ordered sequence of runs. -/
structure Paragraph where
  runs : List Run
deriving DecidableEq, Repr

/-- `paragraph.text` in `python-pptx`: the concatenation of its runs' text. -/
def Paragraph.text (p : Paragraph) : String :=
  String.join (p.runs.map Run.text)

/-- A text frame: an ordered sequence of paragraphs. -/
structure TextFrame where
  paragraphs : List Paragraph
deriving DecidableEq, Repr

/-- `text_frame.text` in `python-pptx`: paragraph texts joined by newlines. -/
def TextFrame.text (tf : TextFrame) : String :=
  String.intercalate "\n" (tf.paragraphs.map Paragraph.text)

/-- A table cell; it owns its own text frame. -/
structure Cell where
  text_frame : TextFrame
deriving DecidableEq, Repr

/-- `cell.text` in `python-pptx`: the text of the cell's text frame. -/
def Cell.text (c : Cell) : String :=
  c.text_frame.text

/-- A table: an ordered sequence of rows, each an ordered sequence of cells. -/
structure Table where
  rows : List (List Cell)
deriving DecidableEq, Repr

/-- The fore color of a solid fill, as the classifier observes it:
an explicit RGB triple, a theme-color reference (index and brightness),
neither, or an inspection that raises an exception. -/
inductive ColorView where
  | rgb (r g b : Nat)
  | theme (idx : Nat) (brightness : ℚ)
  | plain
  | raises
deriving DecidableEq, Repr

/-- The fill of a shape, as the classifier observes it through
`fill.type`: one of the seven mapped `MSO_FILL_TYPE` members (with the
fore-color observation for a solid fill), a type outside the map
(e.g. an inherited/None type), or an inspection that raises. -/
inductive FillView where
  | solid (c : ColorView)
  | gradient
  | picture
  | group
  | background
  | patterned
  | textured
  | notInMap
  | raises
deriving DecidableEq, Repr

/-- A shape on a slide.  `fill = none` embeds `hasattr(shape, 'fill')`
being false; the geometry fields embed `hasattr(shape, 'left')` etc.;
`text_frame = none` embeds `shape.has_text_frame` being false;
`table = none` embeds a shape on which accessing `shape.table` raises. -/
structure Shape where
  shape_id : Nat
  name : String
  shape_type : Int
  text_frame : Option TextFrame
  table : Option Table
  fill : Option FillView
  left : Option Int
  top : Option Int
  width : Option Int
  height : Option Int
deriving DecidableEq, Repr

/-- A slide: an ordered sequence of shapes. -/
structure Slide where
  shapes : List Shape
deriving DecidableEq, Repr

/-- A presentation: an ordered sequence of slides. -/
structure Presentation where
  slides : List Slide
deriving DecidableEq, Repr

/-- The uploaded byte source as the two passes see it: either
`Presentation(uploaded_file)` parses to an object graph, or it raises. -/
inductive UploadedFile where
  | ok (p : Presentation)
  | bad
deriving DecidableEq, Repr

/-- The members of the `python-pptx` `MSO_SHAPE_TYPE` enumeration
(name, MS-API integer value), as published by the dependency.  Note
that the enumeration has no `GRAPHIC_FRAME` member, so the script's
`hasattr(MSO_SHAPE_TYPE, 'GRAPHIC_FRAME')` probes are false. -/
def msoShapeTypeMembers : List (String × Int) :=
  [("AUTO_SHAPE", 1), ("CALLOUT", 2), ("CANVAS", 20), ("CHART", 3),
   ("COMMENT", 4), ("DIAGRAM", 21), ("EMBEDDED_OLE_OBJECT", 7),
   ("FORM_CONTROL", 8), ("FREEFORM", 5), ("GROUP", 6), ("IGX_GRAPHIC", 24),
   ("INK", 22), ("INK_COMMENT", 23), ("LINE", 9), ("LINKED_OLE_OBJECT", 10),
   ("LINKED_PICTURE", 11), ("MEDIA", 16), ("OLE_CONTROL_OBJECT", 12),
   ("PICTURE", 13), ("PLACEHOLDER", 14), ("SCRIPT_ANCHOR", 18),
   ("TABLE", 19), ("TEXT_BOX", 17), ("TEXT_EFFECT", 15), ("WEB_VIDEO", 26),
   ("MIXED", -2)]

/-- `MSO_SHAPE_TYPE.<n>` as an optional value: `none` embeds
`hasattr(MSO_SHAPE_TYPE, n)` being false. -/
def msoVal (n : String) : Option Int :=
  (msoShapeTypeMembers.find? (fun m => m.1 == n)).map (fun m => m.2)

/-- Embedding of `hasattr(MSO_SHAPE_TYPE, n)`. -/
def msoHasattr (n : String) : Bool :=
  (msoVal n).isSome

/-- Embedding of the guarded comparison
`hasattr(MSO_SHAPE_TYPE, n) and shape_type == MSO_SHAPE_TYPE.<n>`. -/
def msoTypeIs (n : String) (t : Int) : Bool :=
  match msoVal n with
  | some v => t == v
  | none => false

/-- The connector-skip test used by both extractors:
`(hasattr(MSO_SHAPE_TYPE,'LINE') and shape_type == MSO_SHAPE_TYPE.LINE)
 or (not hasattr(...) and shape_type == 13)`. -/
def isLineSkip (t : Int) : Bool :=
  msoTypeIs "LINE" t || (!msoHasattr "LINE" && t == 13)

/-- The table test used by `get_all_text_from_shape` and the Text-Run
Extractor: `(hasattr(MSO_SHAPE_TYPE,'TABLE') and shape_type ==
MSO_SHAPE_TYPE.TABLE) or (not hasattr(...) and shape_type == 19)`. -/
def isTableType (t : Int) : Bool :=
  msoTypeIs "TABLE" t || (!msoHasattr "TABLE" && t == 19)

/-- The `is_other_graphic_frame` test of the classifier:
`(hasattr(MSO_SHAPE_TYPE,'GRAPHIC_FRAME') and shape_type ==
MSO_SHAPE_TYPE.GRAPHIC_FRAME) or (shape_type == 6)`. -/
def is_other_graphic_frame (t : Int) : Bool :=
  msoTypeIs "GRAPHIC_FRAME" t || t == 6

/-- `next((m.name for m in MSO_SHAPE_TYPE if m.value == t),
f"Unknown ({t})")`: the name of the enumeration member with value `t`,
else the `Unknown (...)` rendering. -/
def shapeTypeName (t : Int) : String :=
  match msoShapeTypeMembers.find? (fun m => m.2 == t) with
  | some m => m.1
  | none => "Unknown (" ++ toString t ++ ")"

/-- Round `100 * q` to the nearest integer, ties to even — the rounding
of Python's fixed-point float formatting at two decimal places.
Computed on the reduced numerator and denominator of `q`:
`100 * q = (100 * q.num) / q.den`, whose floor and fractional part are
given by floor-division and floor-remainder by the positive
denominator. -/
def roundHalfEven2dp (q : ℚ) : Int :=
  let N : Int := 100 * q.num
  let D : Int := (q.den : Int)
  let f := N.fdiv D
  let r := N.fmod D
  if 2 * r < D then f
  else if D < 2 * r then f + 1
  else if f % 2 = 0 then f else f + 1

/-- Modelled from the spec: Python's `f"{x:.2f}"` fixed-point rendering
with two decimal places ("brightness to 2 decimal places"), on the
rational embedding of the brightness float.  A negative value keeps its
sign even when the rounded digits are all zero, as Python's rendering
does. -/
def fmt2 (q : ℚ) : String :=
  let n := (roundHalfEven2dp q).natAbs
  (if q.num < 0 then "-" else "") ++ toString (n / 100) ++ "." ++
    (if n % 100 < 10 then "0" else "") ++ toString (n % 100)

/-- The Fill-Color Classifier `get_shape_fill_color_info`.  The theme
branch renders `f"ThemeColor(Type:{color.theme_color},
Brightness:{brightness:.2f})"`; per the spec the theme-color reference
renders as its theme index and the brightness to two decimal places. -/
def get_shape_fill_color_info (s : Shape) : String :=
  match s.fill with
  | none =>
    if msoTypeIs "TABLE" s.shape_type then "Table Container (Fill N/A)"
    else if msoTypeIs "CHART" s.shape_type then "Chart Container (Fill N/A)"
    else if is_other_graphic_frame s.shape_type then "Graphic Frame (Fill N/A)"
    else "Fill Attribute Missing / Other Type"
  | some f =>
    match f with
    | .raises => "Fill Info Error (General)"
    | .notInMap => "No Fill"
    | .gradient => "Gradient Fill"
    | .picture => "Picture Fill"
    | .group => "Group Fill"
    | .background => "Background Fill"
    | .patterned => "Patterned Fill"
    | .textured => "Textured Fill"
    | .solid c =>
      match c with
      | .rgb r g b =>
          "RGB(" ++ toString r ++ "," ++ toString g ++ "," ++ toString b ++ ")"
      | .theme idx b =>
          "ThemeColor(Type:" ++ toString idx ++ ", Brightness:" ++ fmt2 b ++ ")"
      | .plain => "Solid Fill"
      | .raises => "Fill Info Error (General)"

/-- The text-frame contribution to the `text_parts` list built by
`get_all_text_from_shape`: the non-empty stripped paragraph texts of the
shape's text frame (empty when `shape.has_text_frame` is false). -/
def tfTextParts (s : Shape) : List String :=
  match s.text_frame with
  | some tf =>
      tf.paragraphs.filterMap (fun p =>
        if pyStrip p.text = "" then none else some (pyStrip p.text))
  | none => []

/-- The table contribution to `text_parts`: the non-empty stripped cell
texts in row-major order. -/
def tableTextParts (tb : Table) : List String :=
  tb.rows.flatMap (fun row =>
    row.filterMap (fun c =>
      if pyStrip c.text = "" then none else some (pyStrip c.text)))

/-- The complete `text_parts` list; accessing `shape.table` on a
table-typed shape without a table raises. -/
def textParts (s : Shape) : Except Unit (List String) :=
  if isTableType s.shape_type then
    match s.table with
    | some tb => .ok (tfTextParts s ++ tableTextParts tb)
    | none => .error ()
  else .ok (tfTextParts s)

/-- The Text Concatenator `get_all_text_from_shape`:
`" | ".join(text_parts)`. -/
def get_all_text_from_shape (s : Shape) : Except Unit String :=
  (textParts s).map (String.intercalate " | ")

/-- One data row of Stream A (the Text-Details TSV body).  `none` in the
cell-index columns embeds Python's `None` (an empty TSV cell). -/
structure TextRow where
  slide_index : Nat
  shape_id : Nat
  is_table_cell : Bool
  cell_row_index : Option Nat
  cell_col_index : Option Nat
  paragraph_index : Nat
  run_index : Nat
  text : String
deriving DecidableEq, Repr

/-- The inner run loop of the Text-Run Extractor: one row per run whose
stripped text is non-empty, with the run index counting from `ri`. -/
def runRowsFrom (si sid : Nat) (tc : Bool) (cr cc : Option Nat) (pi : Nat) :
    Nat → List Run → List TextRow
  | _, [] => []
  | ri, r :: rs =>
    (if pyStrip r.text = "" then [] else
      [{ slide_index := si, shape_id := sid, is_table_cell := tc,
         cell_row_index := cr, cell_col_index := cc, paragraph_index := pi,
         run_index := ri, text := pyStrip r.text }]) ++
    runRowsFrom si sid tc cr cc pi (ri + 1) rs

/-- The paragraph loop of the Text-Run Extractor (`enumerate` over the
paragraphs of a text frame, paragraph index counting from `pi`). -/
def paraRowsFrom (si sid : Nat) (tc : Bool) (cr cc : Option Nat) :
    Nat → List Paragraph → List TextRow
  | _, [] => []
  | pi, p :: ps =>
    runRowsFrom si sid tc cr cc pi 0 p.runs ++
    paraRowsFrom si sid tc cr cc (pi + 1) ps

/-- The cell loop of the table branch (`enumerate` over the cells of one
table row, cell-column index counting from `ci`). -/
def cellsRowsFrom (si sid ri : Nat) : Nat → List Cell → List TextRow
  | _, [] => []
  | ci, c :: cs =>
    paraRowsFrom si sid true (some ri) (some ci) 0 c.text_frame.paragraphs ++
    cellsRowsFrom si sid ri (ci + 1) cs

/-- The row loop of the table branch (`enumerate` over the table rows,
cell-row index counting from `ri`). -/
def tableRowsFrom (si sid : Nat) : Nat → List (List Cell) → List TextRow
  | _, [] => []
  | ri, row :: rest =>
    cellsRowsFrom si sid ri 0 row ++ tableRowsFrom si sid (ri + 1) rest

/-- The text-frame rows of one shape (`is_table_cell = false`): empty
when `shape.has_text_frame` is false. -/
def tfShapeRows (si : Nat) (s : Shape) : List TextRow :=
  match s.text_frame with
  | some tf => paraRowsFrom si s.shape_id false none none 0 tf.paragraphs
  | none => []

/-- The Stream-A rows contributed by one shape: nothing for a skipped
connector/line shape; otherwise the text-frame rows
(`is_table_cell = false`) followed, for a table-typed shape, by the
per-cell rows (`is_table_cell = true`).  A table-typed shape without a
table raises (the `shape.table` access). -/
def shapeTextRows (si : Nat) (s : Shape) : Except Unit (List TextRow) :=
  if isLineSkip s.shape_type then .ok []
  else if isTableType s.shape_type then
    match s.table with
    | some tb => .ok (tfShapeRows si s ++ tableRowsFrom si s.shape_id 0 tb.rows)
    | none => .error ()
  else .ok (tfShapeRows si s)

/-- The shape loop of the Text-Run Extractor over one slide. -/
def textRowsShapes (si : Nat) : List Shape → Except Unit (List TextRow)
  | [] => .ok []
  | s :: rest => do
    let r1 ← shapeTextRows si s
    let r2 ← textRowsShapes si rest
    .ok (r1 ++ r2)

/-- The slide loop of the Text-Run Extractor (`enumerate` over slides,
slide index counting from `i`). -/
def textRowsSlides : Nat → List Slide → Except Unit (List TextRow)
  | _, [] => .ok []
  | i, sl :: rest => do
    let r1 ← textRowsShapes i sl.shapes
    let r2 ← textRowsSlides (i + 1) rest
    .ok (r1 ++ r2)

/-- The Text-Run Extractor `generate_text_details_tsv`: `none` embeds the
`except` branch returning `None` (parse failure or any traversal
exception); `some rows` embeds the returned TSV body rows. -/
def generate_text_details_tsv (f : UploadedFile) : Option (List TextRow) :=
  match f with
  | .bad => none
  | .ok p => (textRowsSlides 0 p.slides).toOption

/-- Whether an exception occurs during parsing or traversal in the
Text-Run Extractor's `try` block. -/
def textPassRaises (f : UploadedFile) : Bool :=
  match f with
  | .bad => true
  | .ok p =>
    match textRowsSlides 0 p.slides with
    | .error _ => true
    | .ok _ => false

/-- One data row of Stream B (the Shape-Summary TSV body).  Geometry
columns hold either the decimal EMU value or the literal `'N/A'`. -/
structure ShapeRow where
  slide_index : Nat
  shape_id : Nat
  shape_name : String
  shape_type : String
  color : String
  x_coordinate_emu : String
  y_coordinate_emu : String
  width_emu : String
  height_emu : String
  text : String
deriving DecidableEq, Repr

/-- `shape.left if hasattr(shape, 'left') else 'N/A'`, rendered as the
TSV cell content. -/
def geomStr (o : Option Int) : String :=
  match o with
  | some v => toString v
  | none => "N/A"

/-- The Stream-B row built for one (non-skipped) shape.  Raises exactly
when `get_all_text_from_shape` raises. -/
def shapeSummaryRow (si : Nat) (s : Shape) : Except Unit ShapeRow := do
  let txt ← get_all_text_from_shape s
  .ok { slide_index := si, shape_id := s.shape_id,
        shape_name := if s.name = "" then "Unnamed Shape" else s.name,
        shape_type := shapeTypeName s.shape_type,
        color := get_shape_fill_color_info s,
        x_coordinate_emu := geomStr s.left,
        y_coordinate_emu := geomStr s.top,
        width_emu := geomStr s.width,
        height_emu := geomStr s.height,
        text := txt }

/-- The shape loop of the Shape-Summary Extractor over one slide
(connector/line shapes are skipped). -/
def shapeRowsShapes (si : Nat) : List Shape → Except Unit (List ShapeRow)
  | [] => .ok []
  | s :: rest =>
    if isLineSkip s.shape_type then shapeRowsShapes si rest
    else do
      let r ← shapeSummaryRow si s
      let rs ← shapeRowsShapes si rest
      .ok (r :: rs)

/-- The slide loop of the Shape-Summary Extractor. -/
def shapeRowsSlides : Nat → List Slide → Except Unit (List ShapeRow)
  | _, [] => .ok []
  | i, sl :: rest => do
    let r1 ← shapeRowsShapes i sl.shapes
    let r2 ← shapeRowsSlides (i + 1) rest
    .ok (r1 ++ r2)

/-- The Shape-Summary Extractor `generate_combined_shape_details_tsv`:
`none` embeds the `except` branch returning `None`. -/
def generate_combined_shape_details_tsv (f : UploadedFile) :
    Option (List ShapeRow) :=
  match f with
  | .bad => none
  | .ok p => (shapeRowsSlides 0 p.slides).toOption

/-- Whether an exception occurs during parsing or traversal in the
Shape-Summary Extractor's `try` block. -/
def shapePassRaises (f : UploadedFile) : Bool :=
  match f with
  | .bad => true
  | .ok p =>
    match shapeRowsSlides 0 p.slides with
    | .error _ => true
    | .ok _ => false

/-- Spec-side count for Stream A: the number of runs with non-empty
trimmed text in one shape's text frame. -/
def specShapeRunCount (s : Shape) : Nat :=
  match s.text_frame with
  | some tf =>
    (tf.paragraphs.map (fun p =>
      (p.runs.filter (fun r => pyStrip r.text ≠ "")).length)).sum
  | none => 0

/-- Spec-side count for Stream A: the number of runs with non-empty
trimmed text across the text frames of all non-connector shapes on all
slides of a presentation. -/
def specNonTableRunCount (p : Presentation) : Nat :=
  (p.slides.map (fun sl =>
    ((sl.shapes.filter (fun s => !isLineSkip s.shape_type)).map
      specShapeRunCount).sum)).sum

/-- Whether the classifier's inspection of a shape's fill raises an
exception (the condition its `except Exception` clause catches): either
the `fill.type` access raises, or the fore-color inspection of a solid
fill raises. -/
def fillRaises : FillView → Bool
  | .raises => true
  | .solid .raises => true
  | _ => false

/-- The rational `0.456` (= 57/125): the brightness of the spec's
theme-color scenario. -/
def brightness456 : ℚ := ⟨57, 125, by decide, by decide⟩

/-- A run with the given text. -/
def runOf (t : String) : Run := ⟨t⟩

/-- A paragraph with one run per given string. -/
def paraOf (ts : List String) : Paragraph := ⟨ts.map runOf⟩

/-- A cell whose text frame has a single paragraph with one run per
given string (an empty list gives an empty cell). -/
def cellOf (ts : List String) : Cell := ⟨⟨[paraOf ts]⟩⟩

/-- The 2×2 table of the spec's round-trip scenario: cell (0,0) holds
"A", cell (1,1) holds "B", the other cells are empty. -/
def c1Table : Table :=
  ⟨[[cellOf ["A"], cellOf []], [cellOf [], cellOf ["B"]]]⟩

/-- The table shape of the round-trip scenario. -/
def c1Shape : Shape :=
  { shape_id := 7, name := "Table 1", shape_type := 19, text_frame := none,
    table := some c1Table, fill := none, left := none, top := none,
    width := none, height := none }

/-- A one-slide presentation holding only the round-trip table shape. -/
def c1Pres : Presentation := ⟨[⟨[c1Shape]⟩]⟩

/-- A text-box shape with one non-empty run "X". -/
def demoTextShape : Shape :=
  { shape_id := 1, name := "TextBox 1", shape_type := 17,
    text_frame := some ⟨[paraOf ["X"]]⟩, table := none,
    fill := some (.solid (.rgb 10 20 30)), left := some 0, top := some 0,
    width := some 914400, height := some 914400 }

/-- A table-typed shape whose `table` access raises: traversing it makes
a pass fail. -/
def demoBrokenShape : Shape :=
  { shape_id := 2, name := "Broken", shape_type := 19, text_frame := none,
    table := none, fill := none, left := none, top := none, width := none,
    height := none }

/-- A presentation on which both passes raise mid-traversal (a good
shape followed by a broken one). -/
def demoFailPres : Presentation := ⟨[⟨[demoTextShape, demoBrokenShape]⟩]⟩

/-- The same presentation without the broken shape; both passes
succeed. -/
def demoOkPres : Presentation := ⟨[⟨[demoTextShape]⟩]⟩

/-- A connector/line shape (`MSO_SHAPE_TYPE.LINE`, value 9). -/
def connectorShape : Shape :=
  { shape_id := 2, name := "Straight Connector 3", shape_type := 9,
    text_frame := none, table := none, fill := some .notInMap,
    left := some 5, top := some 5, width := some 100, height := some 0 }

/-- A presentation with a text shape and a connector shape. -/
def c6Pres : Presentation := ⟨[⟨[demoTextShape, connectorShape]⟩]⟩

/-- A shape whose raw kind code 99 matches no enumeration member. -/
def unknownTypeShape : Shape :=
  { shape_id := 3, name := "Mystery", shape_type := 99, text_frame := none,
    table := none, fill := none, left := none, top := none, width := none,
    height := none }

/-- A one-slide presentation holding only the kind-99 shape. -/
def c9Pres : Presentation := ⟨[⟨[unknownTypeShape]⟩]⟩

/-- A shape whose name is the empty string. -/
def unnamedShape : Shape :=
  { shape_id := 4, name := "", shape_type := 1, text_frame := none,
    table := none, fill := some .notInMap, left := some 0, top := some 0,
    width := some 1, height := some 1 }

/-- A one-slide presentation holding only the empty-named shape. -/
def c10Pres : Presentation := ⟨[⟨[unnamedShape]⟩]⟩

/-- A solid-filled shape with explicit RGB (255, 0, 128). -/
def rgbFillShape : Shape :=
  { shape_id := 5, name := "Rect", shape_type := 1, text_frame := none,
    table := none, fill := some (.solid (.rgb 255 0 128)), left := some 0,
    top := some 0, width := some 1, height := some 1 }

/-- A solid-filled shape with theme color index 3, brightness 0.456. -/
def themeFillShape : Shape :=
  { shape_id := 6, name := "Rect2", shape_type := 1, text_frame := none,
    table := none, fill := some (.solid (.theme 3 brightness456)),
    left := some 0, top := some 0, width := some 1, height := some 1 }

/-- A shape whose fill inspection raises. -/
def badFillShape : Shape :=
  { shape_id := 8, name := "Weird", shape_type := 1, text_frame := none,
    table := none, fill := some .raises, left := some 0, top := some 0,
    width := some 1, height := some 1 }

/-- A shape with neither a text frame nor a table. -/
def emptyShape : Shape :=
  { shape_id := 9, name := "Empty", shape_type := 1, text_frame := none,
    table := none, fill := some .notInMap, left := some 0, top := some 0,
    width := some 1, height := some 1 }

section Helpers

/-! Evaluation of the enumeration probes used by the script. -/

lemma msoTypeIs_LINE (t : Int) : msoTypeIs "LINE" t = (t == 9) := by
  have h : msoVal "LINE" = some 9 := by decide
  simp [msoTypeIs, h]

lemma msoTypeIs_TABLE (t : Int) : msoTypeIs "TABLE" t = (t == 19) := by
  have h : msoVal "TABLE" = some 19 := by decide
  simp [msoTypeIs, h]

lemma msoTypeIs_CHART (t : Int) : msoTypeIs "CHART" t = (t == 3) := by
  have h : msoVal "CHART" = some 3 := by decide
  simp [msoTypeIs, h]

lemma msoTypeIs_GF (t : Int) : msoTypeIs "GRAPHIC_FRAME" t = false := by
  have h : msoVal "GRAPHIC_FRAME" = none := by decide
  simp [msoTypeIs, h]

lemma isLineSkip_eq (t : Int) : isLineSkip t = (t == 9) := by
  have h : msoHasattr "LINE" = true := by decide
  simp [isLineSkip, msoTypeIs_LINE, h]

lemma isTableType_eq (t : Int) : isTableType t = (t == 19) := by
  have h : msoHasattr "TABLE" = true := by decide
  simp [isTableType, msoTypeIs_TABLE, h]

lemma is_other_graphic_frame_eq (t : Int) :
    is_other_graphic_frame t = (t == 6) := by
  simp [is_other_graphic_frame, msoTypeIs_GF]

/-! Properties of the `str.strip` embedding: a non-empty stripped string
neither starts nor ends with a whitespace character. -/

lemma head?_dropWhile_not {p : Char → Bool} :
    ∀ {l : List Char} {c : Char}, (l.dropWhile p).head? = some c → p c = false
  | [], c, h => by simp [List.dropWhile] at h
  | a :: l, c, h => by
    by_cases ha : p a
    · rw [List.dropWhile_cons_of_pos ha] at h
      exact head?_dropWhile_not h
    · rw [List.dropWhile_cons_of_neg ha] at h
      simp at h
      simp at ha
      subst h
      exact ha

lemma getLast?_dropWhile {p : Char → Bool} :
    ∀ {l : List Char} {c : Char},
      (l.dropWhile p).getLast? = some c → l.getLast? = some c
  | [], c, h => by simp [List.dropWhile] at h
  | a :: l, c, h => by
    by_cases ha : p a
    · rw [List.dropWhile_cons_of_pos ha] at h
      have hl : l.getLast? = some c := getLast?_dropWhile h
      cases l with
      | nil => simp at hl
      | cons b l2 => rw [List.getLast?_cons_cons]; exact hl
    · rw [List.dropWhile_cons_of_neg ha] at h
      exact h

lemma stripChars_head? {l : List Char} {c : Char}
    (h : (stripChars l).head? = some c) : c.isWhitespace = false := by
  unfold stripChars at h
  rw [List.head?_reverse] at h
  have h2 := getLast?_dropWhile h
  rw [List.getLast?_reverse] at h2
  exact head?_dropWhile_not h2

lemma stripChars_getLast? {l : List Char} {c : Char}
    (h : (stripChars l).getLast? = some c) : c.isWhitespace = false := by
  unfold stripChars at h
  rw [List.getLast?_reverse] at h
  exact head?_dropWhile_not h

end Helpers

section RowLemmas

lemma mem_runRowsFrom {si sid : Nat} {tc : Bool} {cr cc : Option Nat} {pi : Nat} :
    ∀ {ri : Nat} {rs : List Run} {r : TextRow},
      r ∈ runRowsFrom si sid tc cr cc pi ri rs →
      r.slide_index = si ∧ r.shape_id = sid ∧ r.is_table_cell = tc
  | _, [], r, h => by simp [runRowsFrom] at h
  | ri, x :: xs, r, h => by
    rw [runRowsFrom] at h
    rcases List.mem_append.mp h with h1 | h2
    · by_cases hx : pyStrip x.text = ""
      · simp [hx] at h1
      · simp [hx] at h1
        subst h1
        exact ⟨rfl, rfl, rfl⟩
    · exact mem_runRowsFrom h2

lemma mem_paraRowsFrom {si sid : Nat} {tc : Bool} {cr cc : Option Nat} :
    ∀ {pi : Nat} {ps : List Paragraph} {r : TextRow},
      r ∈ paraRowsFrom si sid tc cr cc pi ps →
      r.slide_index = si ∧ r.shape_id = sid ∧ r.is_table_cell = tc
  | _, [], r, h => by simp [paraRowsFrom] at h
  | pi, p :: ps, r, h => by
    rw [paraRowsFrom] at h
    rcases List.mem_append.mp h with h1 | h2
    · exact mem_runRowsFrom h1
    · exact mem_paraRowsFrom h2

lemma mem_cellsRowsFrom {si sid ri : Nat} :
    ∀ {ci : Nat} {cs : List Cell} {r : TextRow},
      r ∈ cellsRowsFrom si sid ri ci cs →
      r.slide_index = si ∧ r.shape_id = sid ∧ r.is_table_cell = true
  | _, [], r, h => by simp [cellsRowsFrom] at h
  | ci, c :: cs, r, h => by
    rw [cellsRowsFrom] at h
    rcases List.mem_append.mp h with h1 | h2
    · exact mem_paraRowsFrom h1
    · exact mem_cellsRowsFrom h2

lemma mem_tableRowsFrom {si sid : Nat} :
    ∀ {ri : Nat} {rws : List (List Cell)} {r : TextRow},
      r ∈ tableRowsFrom si sid ri rws →
      r.slide_index = si ∧ r.shape_id = sid ∧ r.is_table_cell = true
  | _, [], r, h => by simp [tableRowsFrom] at h
  | ri, rw0 :: rest, r, h => by
    rw [tableRowsFrom] at h
    rcases List.mem_append.mp h with h1 | h2
    · exact mem_cellsRowsFrom h1
    · exact mem_tableRowsFrom h2

lemma mem_tfShapeRows {si : Nat} {s : Shape} {r : TextRow}
    (h : r ∈ tfShapeRows si s) :
    r.slide_index = si ∧ r.shape_id = s.shape_id ∧ r.is_table_cell = false := by
  unfold tfShapeRows at h
  cases htf : s.text_frame with
  | none => rw [htf] at h; simp at h
  | some tf => rw [htf] at h; exact mem_paraRowsFrom h

lemma mem_shapeTextRows {si : Nat} {s : Shape} {out : List TextRow} {r : TextRow}
    (h1 : shapeTextRows si s = .ok out) (h2 : r ∈ out) :
    isLineSkip s.shape_type = false ∧ r.slide_index = si ∧
      r.shape_id = s.shape_id := by
  by_cases hskip : isLineSkip s.shape_type
  · rw [shapeTextRows, if_pos hskip] at h1
    cases h1
    simp at h2
  · have hsf : isLineSkip s.shape_type = false := by simpa using hskip
    rw [shapeTextRows, if_neg hskip] at h1
    by_cases htab : isTableType s.shape_type
    · rw [if_pos htab] at h1
      cases htb : s.table with
      | none => rw [htb] at h1; cases h1
      | some tb =>
        rw [htb] at h1
        cases h1
        rcases List.mem_append.mp h2 with hl | hr
        · have := mem_tfShapeRows hl
          exact ⟨hsf, this.1, this.2.1⟩
        · have := mem_tableRowsFrom hr
          exact ⟨hsf, this.1, this.2.1⟩
    · rw [if_neg htab] at h1
      cases h1
      have := mem_tfShapeRows h2
      exact ⟨hsf, this.1, this.2.1⟩

end RowLemmas

section LoopLemmas

lemma textRowsShapes_cons_ok {si : Nat} {s : Shape} {rest : List Shape}
    {out : List TextRow} (h : textRowsShapes si (s :: rest) = .ok out) :
    ∃ r1 r2, shapeTextRows si s = .ok r1 ∧ textRowsShapes si rest = .ok r2 ∧
      out = r1 ++ r2 := by
  rw [textRowsShapes] at h
  cases h1 : shapeTextRows si s with
  | error e => rw [h1] at h; simp [Bind.bind, Except.bind] at h
  | ok r1 =>
    rw [h1] at h
    cases h2 : textRowsShapes si rest with
    | error e => rw [h2] at h; simp [Bind.bind, Except.bind] at h
    | ok r2 =>
      rw [h2] at h
      simp [Bind.bind, Except.bind] at h
      exact ⟨r1, r2, rfl, rfl, h.symm⟩

lemma textRowsSlides_cons_ok {i : Nat} {sl : Slide} {rest : List Slide}
    {out : List TextRow} (h : textRowsSlides i (sl :: rest) = .ok out) :
    ∃ r1 r2, textRowsShapes i sl.shapes = .ok r1 ∧
      textRowsSlides (i + 1) rest = .ok r2 ∧ out = r1 ++ r2 := by
  rw [textRowsSlides] at h
  cases h1 : textRowsShapes i sl.shapes with
  | error e => rw [h1] at h; simp [Bind.bind, Except.bind] at h
  | ok r1 =>
    rw [h1] at h
    cases h2 : textRowsSlides (i + 1) rest with
    | error e => rw [h2] at h; simp [Bind.bind, Except.bind] at h
    | ok r2 =>
      rw [h2] at h
      simp [Bind.bind, Except.bind] at h
      exact ⟨r1, r2, rfl, rfl, h.symm⟩

lemma textRowsShapes_ok_mem {si : Nat} :
    ∀ {shapes : List Shape} {out : List TextRow} {r : TextRow},
      textRowsShapes si shapes = .ok out → r ∈ out →
      ∃ s ∈ shapes, ∃ rs, shapeTextRows si s = .ok rs ∧ r ∈ rs
  | [], out, r, h1, h2 => by
    rw [textRowsShapes] at h1
    cases h1
    simp at h2
  | s :: rest, out, r, h1, h2 => by
    obtain ⟨r1, r2, hs, hrest, hout⟩ := textRowsShapes_cons_ok h1
    subst hout
    rcases List.mem_append.mp h2 with hl | hr
    · exact ⟨s, List.mem_cons_self s rest, r1, hs, hl⟩
    · obtain ⟨s2, hmem, rs, hrs, hr2⟩ := textRowsShapes_ok_mem hrest hr
      exact ⟨s2, List.mem_cons_of_mem s hmem, rs, hrs, hr2⟩

lemma textRowsSlides_ok_mem :
    ∀ {slides : List Slide} {i : Nat} {out : List TextRow} {r : TextRow},
      textRowsSlides i slides = .ok out → r ∈ out →
      ∃ j sl, slides[j]? = some sl ∧
        ∃ rs, textRowsShapes (i + j) sl.shapes = .ok rs ∧ r ∈ rs
  | [], i, out, r, h1, h2 => by
    rw [textRowsSlides] at h1
    cases h1
    simp at h2
  | sl :: rest, i, out, r, h1, h2 => by
    obtain ⟨r1, r2, hsl, hrest, hout⟩ := textRowsSlides_cons_ok h1
    subst hout
    rcases List.mem_append.mp h2 with hl | hr
    · exact ⟨0, sl, by simp, r1, by simpa using hsl, hl⟩
    · obtain ⟨j, sl2, hj, rs, hrs, hr2⟩ := textRowsSlides_ok_mem hrest hr
      refine ⟨j + 1, sl2, by simpa using hj, rs, ?_, hr2⟩
      have : i + (j + 1) = i + 1 + j := by omega
      rw [this]
      exact hrs

end LoopLemmas

section CountLemmas

lemma length_runRowsFrom (si sid : Nat) (tc : Bool) (cr cc : Option Nat)
    (pi : Nat) (rs : List Run) :
    ∀ ri, (runRowsFrom si sid tc cr cc pi ri rs).length =
      (rs.filter (fun r => pyStrip r.text ≠ "")).length := by
  induction rs with
  | nil => intro ri; simp [runRowsFrom]
  | cons x xs ih =>
    intro ri
    rw [runRowsFrom]
    by_cases hx : pyStrip x.text = "" <;> simp [hx, List.filter_cons, ih]

lemma length_paraRowsFrom (si sid : Nat) (tc : Bool) (cr cc : Option Nat)
    (ps : List Paragraph) :
    ∀ pi, (paraRowsFrom si sid tc cr cc pi ps).length =
      (ps.map (fun p =>
        (p.runs.filter (fun r => pyStrip r.text ≠ "")).length)).sum := by
  induction ps with
  | nil => intro pi; simp [paraRowsFrom]
  | cons p ps ih =>
    intro pi
    rw [paraRowsFrom]
    simp [List.length_append, length_runRowsFrom, ih]

lemma filter_not_table_tfShapeRows (si : Nat) (s : Shape) :
    (tfShapeRows si s).filter (fun r => !r.is_table_cell) = tfShapeRows si s :=
  List.filter_eq_self.mpr (fun r hr => by
    have := mem_tfShapeRows hr
    simp [this.2.2])

lemma filter_not_table_tableRowsFrom (si sid ri : Nat)
    (rws : List (List Cell)) :
    (tableRowsFrom si sid ri rws).filter (fun r => !r.is_table_cell) = [] :=
  List.filter_eq_nil_iff.mpr (fun r hr => by
    have := mem_tableRowsFrom hr
    simp [this.2.2])

lemma length_filter_tfShapeRows (si : Nat) (s : Shape) :
    ((tfShapeRows si s).filter (fun r => !r.is_table_cell)).length =
      specShapeRunCount s := by
  rw [filter_not_table_tfShapeRows]
  unfold tfShapeRows specShapeRunCount
  cases htf : s.text_frame with
  | none => simp
  | some tf => simp [length_paraRowsFrom]

lemma shapeTextRows_false_count {si : Nat} {s : Shape} {out : List TextRow}
    (h : shapeTextRows si s = .ok out) :
    (out.filter (fun r => !r.is_table_cell)).length =
      if isLineSkip s.shape_type then 0 else specShapeRunCount s := by
  by_cases hskip : isLineSkip s.shape_type
  · rw [shapeTextRows, if_pos hskip] at h
    cases h
    simp [hskip]
  · rw [shapeTextRows, if_neg hskip] at h
    by_cases htab : isTableType s.shape_type
    · rw [if_pos htab] at h
      cases htb : s.table with
      | none => rw [htb] at h; cases h
      | some tb =>
        rw [htb] at h
        cases h
        rw [List.filter_append, List.length_append,
          filter_not_table_tableRowsFrom]
        simp [hskip, length_filter_tfShapeRows]
    · rw [if_neg htab] at h
      cases h
      simp [hskip, length_filter_tfShapeRows]

lemma textRowsShapes_count {si : Nat} :
    ∀ {shapes : List Shape} {out : List TextRow},
      textRowsShapes si shapes = .ok out →
      (out.filter (fun r => !r.is_table_cell)).length =
        ((shapes.filter (fun s => !isLineSkip s.shape_type)).map
          specShapeRunCount).sum
  | [], out, h => by
    rw [textRowsShapes] at h
    cases h
    simp
  | s :: rest, out, h => by
    obtain ⟨r1, r2, hs, hrest, hout⟩ := textRowsShapes_cons_ok h
    subst hout
    rw [List.filter_append, List.length_append, shapeTextRows_false_count hs,
      textRowsShapes_count hrest]
    by_cases hskip : isLineSkip s.shape_type <;>
      simp [hskip, List.filter_cons]

lemma textRowsSlides_count :
    ∀ {slides : List Slide} {i : Nat} {out : List TextRow},
      textRowsSlides i slides = .ok out →
      (out.filter (fun r => !r.is_table_cell)).length =
        (slides.map (fun sl =>
          ((sl.shapes.filter (fun s => !isLineSkip s.shape_type)).map
            specShapeRunCount).sum)).sum
  | [], i, out, h => by
    rw [textRowsSlides] at h
    cases h
    simp
  | sl :: rest, i, out, h => by
    obtain ⟨r1, r2, hsl, hrest, hout⟩ := textRowsSlides_cons_ok h
    subst hout
    rw [List.filter_append, List.length_append, textRowsShapes_count hsl,
      textRowsSlides_count hrest]
    simp

end CountLemmas

section SummaryLemmas

lemma shapeSummaryRow_ok {si : Nat} {s : Shape} {r : ShapeRow}
    (h : shapeSummaryRow si s = .ok r) :
    ∃ txt, get_all_text_from_shape s = .ok txt ∧
      r = { slide_index := si, shape_id := s.shape_id,
            shape_name := if s.name = "" then "Unnamed Shape" else s.name,
            shape_type := shapeTypeName s.shape_type,
            color := get_shape_fill_color_info s,
            x_coordinate_emu := geomStr s.left,
            y_coordinate_emu := geomStr s.top,
            width_emu := geomStr s.width,
            height_emu := geomStr s.height,
            text := txt } := by
  rw [shapeSummaryRow] at h
  cases ht : get_all_text_from_shape s with
  | error e => rw [ht] at h; simp [Bind.bind, Except.bind] at h
  | ok txt =>
    rw [ht] at h
    simp [Bind.bind, Except.bind] at h
    exact ⟨txt, rfl, h.symm⟩

lemma shapeRowsShapes_ok_mem {si : Nat} :
    ∀ {shapes : List Shape} {out : List ShapeRow} {r : ShapeRow},
      shapeRowsShapes si shapes = .ok out → r ∈ out →
      ∃ s ∈ shapes, isLineSkip s.shape_type = false ∧
        shapeSummaryRow si s = .ok r
  | [], out, r, h1, h2 => by
    rw [shapeRowsShapes] at h1
    cases h1
    simp at h2
  | s :: rest, out, r, h1, h2 => by
    rw [shapeRowsShapes] at h1
    by_cases hskip : isLineSkip s.shape_type
    · rw [if_pos hskip] at h1
      obtain ⟨s2, hm, hsk, hrow⟩ := shapeRowsShapes_ok_mem h1 h2
      exact ⟨s2, List.mem_cons_of_mem s hm, hsk, hrow⟩
    · rw [if_neg hskip] at h1
      cases hr : shapeSummaryRow si s with
      | error e => rw [hr] at h1; simp [Bind.bind, Except.bind] at h1
      | ok row =>
        rw [hr] at h1
        cases hrest : shapeRowsShapes si rest with
        | error e => rw [hrest] at h1; simp [Bind.bind, Except.bind] at h1
        | ok rs =>
          rw [hrest] at h1
          simp [Bind.bind, Except.bind] at h1
          subst h1
          rcases List.mem_cons.mp h2 with hre | hm
          · subst hre
            exact ⟨s, List.mem_cons_self s rest, by simpa using hskip, hr⟩
          · obtain ⟨s2, hm2, hsk, hrow⟩ := shapeRowsShapes_ok_mem hrest hm
            exact ⟨s2, List.mem_cons_of_mem s hm2, hsk, hrow⟩

lemma shapeRowsSlides_cons_ok {i : Nat} {sl : Slide} {rest : List Slide}
    {out : List ShapeRow} (h : shapeRowsSlides i (sl :: rest) = .ok out) :
    ∃ r1 r2, shapeRowsShapes i sl.shapes = .ok r1 ∧
      shapeRowsSlides (i + 1) rest = .ok r2 ∧ out = r1 ++ r2 := by
  rw [shapeRowsSlides] at h
  cases h1 : shapeRowsShapes i sl.shapes with
  | error e => rw [h1] at h; simp [Bind.bind, Except.bind] at h
  | ok r1 =>
    rw [h1] at h
    cases h2 : shapeRowsSlides (i + 1) rest with
    | error e => rw [h2] at h; simp [Bind.bind, Except.bind] at h
    | ok r2 =>
      rw [h2] at h
      simp [Bind.bind, Except.bind] at h
      exact ⟨r1, r2, rfl, rfl, h.symm⟩

lemma shapeRowsSlides_ok_mem :
    ∀ {slides : List Slide} {i : Nat} {out : List ShapeRow} {r : ShapeRow},
      shapeRowsSlides i slides = .ok out → r ∈ out →
      ∃ j sl, slides[j]? = some sl ∧ ∃ s ∈ sl.shapes,
        isLineSkip s.shape_type = false ∧ shapeSummaryRow (i + j) s = .ok r
  | [], i, out, r, h1, h2 => by
    rw [shapeRowsSlides] at h1
    cases h1
    simp at h2
  | sl :: rest, i, out, r, h1, h2 => by
    obtain ⟨r1, r2, hsl, hrest, hout⟩ := shapeRowsSlides_cons_ok h1
    subst hout
    rcases List.mem_append.mp h2 with hl | hr
    · obtain ⟨s, hm, hsk, hrow⟩ := shapeRowsShapes_ok_mem hsl hl
      exact ⟨0, sl, by simp, s, hm, hsk, by simpa using hrow⟩
    · obtain ⟨j, sl2, hj, s, hm, hsk, hrow⟩ := shapeRowsSlides_ok_mem hrest hr
      refine ⟨j + 1, sl2, by simpa using hj, s, hm, hsk, ?_⟩
      have : i + (j + 1) = i + 1 + j := by omega
      rw [this]
      exact hrow

end SummaryLemmas

section MoreHelpers

lemma generate_text_ok {p : Presentation} {rows : List TextRow}
    (h : generate_text_details_tsv (.ok p) = some rows) :
    textRowsSlides 0 p.slides = .ok rows := by
  rw [generate_text_details_tsv] at h
  cases ht : textRowsSlides 0 p.slides with
  | error e => rw [ht] at h; simp [Except.toOption] at h
  | ok rs =>
    rw [ht] at h
    simp [Except.toOption] at h
    rw [h]

lemma generate_shape_ok {p : Presentation} {rows : List ShapeRow}
    (h : generate_combined_shape_details_tsv (.ok p) = some rows) :
    shapeRowsSlides 0 p.slides = .ok rows := by
  rw [generate_combined_shape_details_tsv] at h
  cases ht : shapeRowsSlides 0 p.slides with
  | error e => rw [ht] at h; simp [Except.toOption] at h
  | ok rs =>
    rw [ht] at h
    simp [Except.toOption] at h
    rw [h]

lemma mem_tfTextParts {s : Shape} {a : String} (ha : a ∈ tfTextParts s) :
    (∃ x, a = pyStrip x) ∧ a ≠ "" := by
  unfold tfTextParts at ha
  cases htf : s.text_frame with
  | none => rw [htf] at ha; simp at ha
  | some tf =>
    rw [htf] at ha
    obtain ⟨p, hp, hsome⟩ := List.mem_filterMap.mp ha
    by_cases hx : pyStrip p.text = ""
    · simp [hx] at hsome
    · simp [hx] at hsome
      exact ⟨⟨p.text, hsome.symm⟩, hsome ▸ hx⟩

lemma mem_tableTextParts {tb : Table} {a : String}
    (ha : a ∈ tableTextParts tb) : (∃ x, a = pyStrip x) ∧ a ≠ "" := by
  unfold tableTextParts at ha
  obtain ⟨rw0, hrw, hcell⟩ := List.mem_flatMap.mp ha
  obtain ⟨c, hc, hsome⟩ := List.mem_filterMap.mp hcell
  by_cases hx : pyStrip c.text = ""
  · simp [hx] at hsome
  · simp [hx] at hsome
    exact ⟨⟨c.text, hsome.symm⟩, hsome ▸ hx⟩

lemma textParts_mem {s : Shape} {parts : List String} {a : String}
    (h : textParts s = .ok parts) (ha : a ∈ parts) :
    (∃ x, a = pyStrip x) ∧ a ≠ "" := by
  rw [textParts] at h
  by_cases htab : isTableType s.shape_type
  · rw [if_pos htab] at h
    cases htb : s.table with
    | none => rw [htb] at h; cases h
    | some tb =>
      rw [htb] at h
      cases h
      rcases List.mem_append.mp ha with hl | hr
      · exact mem_tfTextParts hl
      · exact mem_tableTextParts hr
  · rw [if_neg htab] at h
    cases h
    exact mem_tfTextParts ha

lemma stripped_no_lead_delim {a t : String} (hx : ∃ x, a = pyStrip x)
    (h : a = " | " ++ t) : False := by
  obtain ⟨x, rfl⟩ := hx
  have hdata : stripChars x.toList = (" | " ++ t).data :=
    congrArg String.data h
  rw [String.data_append] at hdata
  have hhead : (stripChars x.toList).head? = some ' ' := by
    rw [hdata]; rfl
  have := stripChars_head? hhead
  simp [Char.isWhitespace] at this

lemma stripped_no_trail_delim {a t : String} (hx : ∃ x, a = pyStrip x)
    (h : a = t ++ " | ") : False := by
  obtain ⟨x, rfl⟩ := hx
  have hdata : stripChars x.toList = (t ++ " | ").data :=
    congrArg String.data h
  rw [String.data_append] at hdata
  have hlast : (stripChars x.toList).getLast? = some ' ' := by
    rw [hdata]
    have : t.data ++ (" | ").data = (t.data ++ [' ', '|']) ++ [' '] := by
      simp
    rw [this, List.getLast?_concat]
  have := stripChars_getLast? hlast
  simp [Char.isWhitespace] at this

end MoreHelpers

/-- C1: for the 2×2 table shape with "A" in cell (0,0) and "B" in cell
(1,1) (other cells empty), the Text-Run Extractor emits exactly the rows
`(is_table_cell=true, 0, 0, 0, 0, "A")` and `(true, 1, 1, 0, 0, "B")`,
and the Text Concatenator — the Shape-Summary `text` field — returns
`"A | B"` for that shape. -/
theorem C1_round_trip :
    generate_text_details_tsv (.ok c1Pres) =
      some [{ slide_index := 0, shape_id := 7, is_table_cell := true,
              cell_row_index := some 0, cell_col_index := some 0,
              paragraph_index := 0, run_index := 0, text := "A" },
            { slide_index := 0, shape_id := 7, is_table_cell := true,
              cell_row_index := some 1, cell_col_index := some 1,
              paragraph_index := 0, run_index := 0, text := "B" }] ∧
    get_all_text_from_shape c1Shape = .ok "A | B" ∧
    (generate_combined_shape_details_tsv (.ok c1Pres)).map
      (fun rs => rs.map ShapeRow.text) = some ["A | B"] := by
  refine ⟨by decide, by decide, by decide⟩

/-- C2: whenever the Text-Run Extractor succeeds on a presentation, the
number of emitted rows with `is_table_cell = false` equals the number of
runs with non-empty stripped text across the text frames of all
non-connector shapes on all slides. -/
theorem C2_stream_a_count (p : Presentation) (rows : List TextRow)
    (h : generate_text_details_tsv (.ok p) = some rows) :
    (rows.filter (fun r => !r.is_table_cell)).length =
      specNonTableRunCount p := by
  rw [textRowsSlides_count (generate_text_ok h)]
  rfl

/-- Witness for C2 at a concrete presentation with one text run. -/
theorem C2_stream_a_count_witness :
    (([({ slide_index := 0, shape_id := 1, is_table_cell := false,
          cell_row_index := none, cell_col_index := none,
          paragraph_index := 0, run_index := 0, text := "X" } : TextRow)]
        ).filter (fun r => !r.is_table_cell)).length =
      specNonTableRunCount demoOkPres :=
  C2_stream_a_count demoOkPres _ (by decide)

/-- C3: a solid fill with an explicit RGB triple (components 0–255)
renders as `"RGB(r,g,b)"` in decimal; a solid fill with a theme-color
reference and no RGB renders as
`"ThemeColor(Type:<index>, Brightness:<2 decimal places>)"`; in
particular theme index 3 with brightness 0.456 renders exactly as
`"ThemeColor(Type:3, Brightness:0.46)"`. -/
theorem C3_solid_fill_rendering :
    (∀ (s : Shape) (r g b : Nat), r ≤ 255 → g ≤ 255 → b ≤ 255 →
      s.fill = some (.solid (.rgb r g b)) →
      get_shape_fill_color_info s =
        "RGB(" ++ toString r ++ "," ++ toString g ++ "," ++
          toString b ++ ")") ∧
    (∀ (s : Shape) (idx : Nat) (br : ℚ),
      s.fill = some (.solid (.theme idx br)) →
      get_shape_fill_color_info s =
        "ThemeColor(Type:" ++ toString idx ++ ", Brightness:" ++
          fmt2 br ++ ")") ∧
    get_shape_fill_color_info themeFillShape =
      "ThemeColor(Type:3, Brightness:0.46)" := by
  refine ⟨?_, ?_, by decide⟩
  · intro s r g b _ _ _ hf
    simp [get_shape_fill_color_info, hf]
  · intro s idx br hf
    simp [get_shape_fill_color_info, hf]

/-- Witness for C3 at the concrete RGB scenario (255, 0, 128). -/
theorem C3_solid_fill_rendering_witness :
    get_shape_fill_color_info rgbFillShape = "RGB(255,0,128)" := by
  have h := C3_solid_fill_rendering.1 rgbFillShape 255 0 128 (by decide)
    (by decide) (by decide) (by decide)
  rw [h]
  decide

lemma eq_empty_of_length_zero {a : String} (h : a.length = 0) : a = "" := by
  cases a with
  | mk data =>
    have hd : data.length = 0 := h
    rw [List.length_eq_zero.mp hd]

lemma append_ne_empty_right (a : String) {b : String} (hb : b ≠ "") :
    a ++ b ≠ "" := by
  intro h
  apply hb
  have hl := congrArg String.length h
  rw [String.length_append] at hl
  have h0 : ("" : String).length = 0 := rfl
  rw [h0] at hl
  exact eq_empty_of_length_zero (by omega)

/-- C4: the Fill-Color Classifier is total: it returns a non-empty
string for every shape, and whenever the inspection of the fill raises
an exception, the exception is caught and the result is the string
`"Fill Info Error (General)"`. -/
theorem C4_classifier_never_raises :
    (∀ s : Shape, get_shape_fill_color_info s ≠ "") ∧
    (∀ (s : Shape) (f : FillView), s.fill = some f → fillRaises f = true →
      get_shape_fill_color_info s = "Fill Info Error (General)") := by
  constructor
  · intro s
    cases hf : s.fill with
    | none =>
      simp only [get_shape_fill_color_info, hf]
      split
      · decide
      · split
        · decide
        · split
          · decide
          · decide
    | some f =>
      cases f with
      | solid c =>
        cases c with
        | rgb r g b =>
          simp only [get_shape_fill_color_info, hf]
          exact append_ne_empty_right _ (by decide)
        | theme idx br =>
          simp only [get_shape_fill_color_info, hf]
          exact append_ne_empty_right _ (by decide)
        | plain => simp [get_shape_fill_color_info, hf]
        | raises => simp [get_shape_fill_color_info, hf]
      | gradient => simp [get_shape_fill_color_info, hf]
      | picture => simp [get_shape_fill_color_info, hf]
      | group => simp [get_shape_fill_color_info, hf]
      | background => simp [get_shape_fill_color_info, hf]
      | patterned => simp [get_shape_fill_color_info, hf]
      | textured => simp [get_shape_fill_color_info, hf]
      | notInMap => simp [get_shape_fill_color_info, hf]
      | raises => simp [get_shape_fill_color_info, hf]
  · intro s f hf hraise
    cases f with
    | solid c =>
      cases c with
      | raises => simp [get_shape_fill_color_info, hf]
      | rgb r g b => simp [fillRaises] at hraise
      | theme idx br => simp [fillRaises] at hraise
      | plain => simp [fillRaises] at hraise
    | raises => simp [get_shape_fill_color_info, hf]
    | gradient => simp [fillRaises] at hraise
    | picture => simp [fillRaises] at hraise
    | group => simp [fillRaises] at hraise
    | background => simp [fillRaises] at hraise
    | patterned => simp [fillRaises] at hraise
    | textured => simp [fillRaises] at hraise
    | notInMap => simp [fillRaises] at hraise

/-- Witness for C4 at a shape whose fill inspection raises. -/
theorem C4_classifier_never_raises_witness :
    get_shape_fill_color_info badFillShape = "Fill Info Error (General)" :=
  C4_classifier_never_raises.2 badFillShape .raises (by decide) (by decide)

/-- C5: each extraction pass is all-or-nothing: it returns no rows
(`none`, a failure signal distinct from an empty row list) exactly when
an exception occurs during parsing or traversal; concretely, on a
presentation whose second shape raises mid-traversal both passes return
`none`, although the same traversal without the broken shape emits a
row. -/
theorem C5_all_or_nothing :
    (∀ f : UploadedFile,
      (generate_text_details_tsv f = none ↔ textPassRaises f = true) ∧
      (generate_combined_shape_details_tsv f = none ↔
        shapePassRaises f = true)) ∧
    generate_text_details_tsv (.ok demoFailPres) = none ∧
    generate_combined_shape_details_tsv (.ok demoFailPres) = none ∧
    generate_text_details_tsv (.ok demoOkPres) =
      some [{ slide_index := 0, shape_id := 1, is_table_cell := false,
              cell_row_index := none, cell_col_index := none,
              paragraph_index := 0, run_index := 0, text := "X" }] := by
  refine ⟨?_, by decide, by decide, by decide⟩
  intro f
  cases f with
  | bad =>
    constructor <;>
      simp [generate_text_details_tsv, generate_combined_shape_details_tsv,
        textPassRaises, shapePassRaises]
  | ok p =>
    constructor
    · rw [generate_text_details_tsv, textPassRaises]
      cases ht : textRowsSlides 0 p.slides with
      | error e => simp [Except.toOption]
      | ok rs => simp [Except.toOption]
    · rw [generate_combined_shape_details_tsv, shapePassRaises]
      cases ht : shapeRowsSlides 0 p.slides with
      | error e => simp [Except.toOption]
      | ok rs => simp [Except.toOption]

/-- C6: under per-slide uniqueness of shape identifiers, no row of
either stream carries the `shape_id` of a connector/line shape of its
slide: connector/line shapes are skipped entirely in both passes. -/
theorem C6_connectors_skipped (p : Presentation)
    (rowsA : List TextRow) (rowsB : List ShapeRow)
    (hA : generate_text_details_tsv (.ok p) = some rowsA)
    (hB : generate_combined_shape_details_tsv (.ok p) = some rowsB)
    (huniq : ∀ sl ∈ p.slides, (sl.shapes.map Shape.shape_id).Nodup)
    (j : Nat) (sl : Slide) (hj : p.slides[j]? = some sl)
    (c : Shape) (hc : c ∈ sl.shapes)
    (hline : isLineSkip c.shape_type = true) :
    (∀ r ∈ rowsA, ¬(r.slide_index = j ∧ r.shape_id = c.shape_id)) ∧
    (∀ r ∈ rowsB, ¬(r.slide_index = j ∧ r.shape_id = c.shape_id)) := by
  have hslmem : sl ∈ p.slides := by
    have := List.getElem?_eq_some_iff.mp hj
    obtain ⟨hlt, hget⟩ := this
    exact hget ▸ List.getElem_mem hlt
  constructor
  · intro r hr ⟨hrj, hrid⟩
    obtain ⟨j2, sl2, hj2, rs, hrs, hrin⟩ :=
      textRowsSlides_ok_mem (generate_text_ok hA) hr
    obtain ⟨s, hsm, rs2, hrs2, hr2⟩ := textRowsShapes_ok_mem hrs hrin
    obtain ⟨hnskip, hslide, hsid⟩ := mem_shapeTextRows hrs2 hr2
    have hj2j : j2 = j := by omega
    subst hj2j
    rw [hj] at hj2
    cases hj2
    have hsc : s = c :=
      List.inj_on_of_nodup_map (huniq sl hslmem) hsm hc (by omega)
    rw [hsc] at hnskip
    rw [hnskip] at hline
    cases hline
  · intro r hr ⟨hrj, hrid⟩
    obtain ⟨j2, sl2, hj2, s, hsm, hnskip, hrow⟩ :=
      shapeRowsSlides_ok_mem (generate_shape_ok hB) hr
    obtain ⟨txt, htxt, hre⟩ := shapeSummaryRow_ok hrow
    have hslide : r.slide_index = 0 + j2 := by rw [hre]
    have hsid : r.shape_id = s.shape_id := by rw [hre]
    have hj2j : j2 = j := by omega
    subst hj2j
    rw [hj] at hj2
    cases hj2
    have hsc : s = c :=
      List.inj_on_of_nodup_map (huniq sl hslmem) hsm hc (by omega)
    rw [hsc] at hnskip
    rw [hnskip] at hline
    cases hline

/-- Witness for C6 at a presentation with a text shape and a
connector. -/
theorem C6_connectors_skipped_witness :
    (∀ r ∈ [({ slide_index := 0, shape_id := 1, is_table_cell := false,
               cell_row_index := none, cell_col_index := none,
               paragraph_index := 0, run_index := 0,
               text := "X" } : TextRow)],
      ¬(r.slide_index = 0 ∧ r.shape_id = connectorShape.shape_id)) ∧
    (∀ r ∈ [({ slide_index := 0, shape_id := 1,
               shape_name := "TextBox 1", shape_type := "TEXT_BOX",
               color := "RGB(10,20,30)", x_coordinate_emu := "0",
               y_coordinate_emu := "0", width_emu := "914400",
               height_emu := "914400", text := "X" } : ShapeRow)],
      ¬(r.slide_index = 0 ∧ r.shape_id = connectorShape.shape_id)) :=
  C6_connectors_skipped c6Pres _ _ (by decide) (by decide)
    (by decide) 0 ⟨[demoTextShape, connectorShape]⟩ (by decide)
    connectorShape (by decide) (by decide)

/-- C7: the Text Concatenator is deterministic (two runs on the same
shape agree); it returns the empty string when the shape has neither a
text frame nor a table, and when all parts are empty after stripping;
and with at most one non-empty part its output neither starts nor ends
with the delimiter `" | "`. -/
theorem C7_concatenator_properties :
    (∀ s : Shape, get_all_text_from_shape s = get_all_text_from_shape s) ∧
    (∀ s : Shape, s.text_frame = none → isTableType s.shape_type = false →
      get_all_text_from_shape s = .ok "") ∧
    (∀ s : Shape, textParts s = .ok [] →
      get_all_text_from_shape s = .ok "") ∧
    (∀ (s : Shape) (parts : List String) (out : String),
      textParts s = .ok parts → parts.length ≤ 1 →
      get_all_text_from_shape s = .ok out →
      (¬∃ t, out = " | " ++ t) ∧ (¬∃ t, out = t ++ " | ")) := by
  refine ⟨fun s => rfl, ?_, ?_, ?_⟩
  · intro s htf htab
    have hp : textParts s = .ok [] := by
      rw [textParts]
      simp [htab, tfTextParts, htf]
    rw [get_all_text_from_shape, hp]
    rfl
  · intro s hp
    rw [get_all_text_from_shape, hp]
    rfl
  · intro s parts out hp hlen hout
    rw [get_all_text_from_shape, hp] at hout
    simp [Except.map] at hout
    cases parts with
    | nil =>
      rw [show String.intercalate " | " [] = "" from rfl] at hout
      subst hout
      constructor
      · rintro ⟨t, ht⟩
        have hl := congrArg String.length ht
        rw [String.length_append] at hl
        have h0 : ("" : String).length = 0 := rfl
        have h3 : (" | " : String).length = 3 := rfl
        omega
      · rintro ⟨t, ht⟩
        have hl := congrArg String.length ht
        rw [String.length_append] at hl
        have h0 : ("" : String).length = 0 := rfl
        have h3 : (" | " : String).length = 3 := rfl
        omega
    | cons a rest =>
      have hrest : rest = [] := by
        rcases rest with _ | ⟨b, rest2⟩
        · rfl
        · simp at hlen
      subst hrest
      rw [show String.intercalate " | " [a] = a from rfl] at hout
      subst hout
      have hmem : a ∈ [a] := List.mem_singleton.mpr rfl
      obtain ⟨hx, hne⟩ := textParts_mem hp hmem
      exact ⟨fun ⟨t, ht⟩ => stripped_no_lead_delim hx ht,
        fun ⟨t, ht⟩ => stripped_no_trail_delim hx ht⟩

/-- Witness for C7 at a shape with neither text frame nor table. -/
theorem C7_concatenator_properties_witness :
    get_all_text_from_shape emptyShape = .ok "" :=
  C7_concatenator_properties.2.1 emptyShape (by decide) (by decide)

/-- C8: a shape without a fill attribute is classified by its kind code:
19 (`TABLE`) gives `"Table Container (Fill N/A)"`, 3 (`CHART`) gives
`"Chart Container (Fill N/A)"`, 6 (the code's `is_other_graphic_frame`
test) gives `"Graphic Frame (Fill N/A)"`, and every other kind gives
`"Fill Attribute Missing / Other Type"`. -/
theorem C8_fill_missing_sentinels (s : Shape) (hf : s.fill = none) :
    (s.shape_type = 19 →
      get_shape_fill_color_info s = "Table Container (Fill N/A)") ∧
    (s.shape_type = 3 →
      get_shape_fill_color_info s = "Chart Container (Fill N/A)") ∧
    (s.shape_type = 6 →
      get_shape_fill_color_info s = "Graphic Frame (Fill N/A)") ∧
    (s.shape_type ≠ 19 → s.shape_type ≠ 3 → s.shape_type ≠ 6 →
      get_shape_fill_color_info s = "Fill Attribute Missing / Other Type") := by
  refine ⟨?_, ?_, ?_, ?_⟩
  · intro ht
    simp [get_shape_fill_color_info, hf, msoTypeIs_TABLE, ht]
  · intro ht
    simp [get_shape_fill_color_info, hf, msoTypeIs_TABLE, msoTypeIs_CHART, ht]
  · intro ht
    simp [get_shape_fill_color_info, hf, msoTypeIs_TABLE, msoTypeIs_CHART,
      is_other_graphic_frame_eq, ht]
  · intro h19 h3 h6
    simp [get_shape_fill_color_info, hf, msoTypeIs_TABLE, msoTypeIs_CHART,
      is_other_graphic_frame_eq, h19, h3, h6]

/-- Witness for C8 at the fill-less table shape of the round-trip
scenario. -/
theorem C8_fill_missing_sentinels_witness :
    get_shape_fill_color_info c1Shape = "Table Container (Fill N/A)" :=
  (C8_fill_missing_sentinels c1Shape (by decide)).1 (by decide)

/-- C9: every Stream-B row renders `shape_type` as the name of the
enumeration member whose value matches the shape's kind, or as
`"Unknown (<raw-kind>)"` when no member matches; in particular raw kind
code 99 renders as `"Unknown (99)"` in the output. -/
theorem C9_shape_type_rendering :
    (∀ (si : Nat) (s : Shape) (r : ShapeRow), shapeSummaryRow si s = .ok r →
      ((∃ m ∈ msoShapeTypeMembers, m.2 = s.shape_type ∧
          r.shape_type = m.1) ∨
       ((∀ m ∈ msoShapeTypeMembers, m.2 ≠ s.shape_type) ∧
        r.shape_type = "Unknown (" ++ toString s.shape_type ++ ")"))) ∧
    (generate_combined_shape_details_tsv (.ok c9Pres)).map
      (fun rs => rs.map ShapeRow.shape_type) = some ["Unknown (99)"] := by
  refine ⟨?_, by decide⟩
  intro si s r h
  obtain ⟨txt, htxt, hre⟩ := shapeSummaryRow_ok h
  have hst : r.shape_type = shapeTypeName s.shape_type := by rw [hre]
  rw [shapeTypeName] at hst
  cases hfind : msoShapeTypeMembers.find? (fun m => m.2 == s.shape_type) with
  | some m =>
    rw [hfind] at hst
    left
    refine ⟨m, List.mem_of_find?_eq_some hfind, ?_, hst⟩
    have := List.find?_some hfind
    simpa using this
  | none =>
    rw [hfind] at hst
    right
    refine ⟨?_, hst⟩
    intro m hm
    have := List.find?_eq_none.mp hfind m hm
    simpa using this

/-- Witness for C9 at the kind-99 shape. -/
theorem C9_shape_type_rendering_witness :
    (∃ m ∈ msoShapeTypeMembers, m.2 = unknownTypeShape.shape_type ∧
      ({ slide_index := 0, shape_id := 3, shape_name := "Mystery",
         shape_type := "Unknown (99)",
         color := "Fill Attribute Missing / Other Type",
         x_coordinate_emu := "N/A", y_coordinate_emu := "N/A",
         width_emu := "N/A", height_emu := "N/A",
         text := "" } : ShapeRow).shape_type = m.1) ∨
    ((∀ m ∈ msoShapeTypeMembers, m.2 ≠ unknownTypeShape.shape_type) ∧
      ({ slide_index := 0, shape_id := 3, shape_name := "Mystery",
         shape_type := "Unknown (99)",
         color := "Fill Attribute Missing / Other Type",
         x_coordinate_emu := "N/A", y_coordinate_emu := "N/A",
         width_emu := "N/A", height_emu := "N/A",
         text := "" } : ShapeRow).shape_type =
        "Unknown (" ++ toString unknownTypeShape.shape_type ++ ")") :=
  C9_shape_type_rendering.1 0 unknownTypeShape _ (by decide)

/-- C10: a shape whose name is the empty string gets the Shape-Summary
`shape_name` value `"Unnamed Shape"`; consequently no emitted Stream-B
row has an empty `shape_name`. -/
theorem C10_unnamed_shape_default :
    (∀ (si : Nat) (s : Shape) (r : ShapeRow), shapeSummaryRow si s = .ok r →
      s.name = "" → r.shape_name = "Unnamed Shape") ∧
    (∀ (p : Presentation) (rows : List ShapeRow),
      generate_combined_shape_details_tsv (.ok p) = some rows →
      ∀ r ∈ rows, r.shape_name ≠ "") := by
  constructor
  · intro si s r h hname
    obtain ⟨txt, htxt, hre⟩ := shapeSummaryRow_ok h
    rw [hre]
    simp [hname]
  · intro p rows h r hr
    obtain ⟨j, sl, hj, s, hsm, hnskip, hrow⟩ :=
      shapeRowsSlides_ok_mem (generate_shape_ok h) hr
    obtain ⟨txt, htxt, hre⟩ := shapeSummaryRow_ok hrow
    rw [hre]
    show (if s.name = "" then "Unnamed Shape" else s.name) ≠ ""
    by_cases hname : s.name = ""
    · rw [if_pos hname]
      decide
    · rw [if_neg hname]
      exact hname

/-- Witness for C10 at the empty-named shape. -/
theorem C10_unnamed_shape_default_witness :
    ({ slide_index := 0, shape_id := 4, shape_name := "Unnamed Shape",
       shape_type := "AUTO_SHAPE", color := "No Fill",
       x_coordinate_emu := "0", y_coordinate_emu := "0", width_emu := "1",
       height_emu := "1", text := "" } : ShapeRow).shape_name =
      "Unnamed Shape" :=
  C10_unnamed_shape_default.1 0 unnamedShape _ (by decide) (by decide)
